import Mathlib

/-!
Verification of the platform-abstraction helpers of the LOOT GUI
(src/gui/helpers.cpp): the registry accessor, the .GamingRoot
redirect-marker parser, the filename collator, the well-known path
resolver and the CRC formatter.  OS calls (RegGetValue, RegEnumKeyEx,
filesystem reads, getenv, CompareStringOrdinal) are modelled as oracle
parameters describing the host state observed by each call; everything
the C++ code computes from those observations is embedded directly.
-/

namespace loot

/-! ### Registry accessor (helpers.cpp, Windows branch) -/

/-- The five root keys accepted by the helpers. -/
inductive RegRootKey where
  | classesRoot
  | currentConfig
  | currentUser
  | localMachine
  | users
deriving DecidableEq, Repr

/-- GetRegistryRootKey (helpers.cpp:110): maps a root-key name to the
corresponding handle; any other name makes the C++ function throw
std::invalid_argument, modelled here as none. -/
def GetRegistryRootKey (rootKey : String) : Option RegRootKey :=
  if rootKey = "HKEY_CLASSES_ROOT" then some .classesRoot
  else if rootKey = "HKEY_CURRENT_CONFIG" then some .currentConfig
  else if rootKey = "HKEY_CURRENT_USER" then some .currentUser
  else if rootKey = "HKEY_LOCAL_MACHINE" then some .localMachine
  else if rootKey = "HKEY_USERS" then some .users
  else none

/-- Outcome of one RegGetValue call, as observed by the caller.  The code
only compares the returned status against ERROR_SUCCESS; a failure carries
the raw status code (2 = file not found, 5 = access denied, ...), which the
code never inspects. -/
inductive RegGetResult where
  | success (value : String)
  | failure (code : Nat)
deriving DecidableEq, Repr

/-- Abnormal outcomes of the registry helpers.  sinkNullDeref models the
undefined behaviour of calling a member function through the absent logger
(the call at helpers.cpp:154 is not guarded by an `if (logger)` check): in
practice a crash, never a normal return.  accessError carries the key path
embedded in the thrown std::system_error message. -/
inductive RegError where
  | sinkNullDeref
  | invalidRootKey
  | accessError (keyPath : String)
deriving DecidableEq, Repr

/-- RegKeyStringValue (helpers.cpp:125).  view32 and view64 are the oracle
outcomes of the two RegGetValue calls (32-bit registry view first, then the
64-bit view).  The logger->info call between the two attempts is not
guarded, so with no logger attached a failed first attempt dereferences the
null logger before the retry can happen.  A lookup that fails under both
views returns the empty string (absence), whatever the failure codes. -/
def RegKeyStringValue (hasLogger : Bool) (rootKey : String)
    (view32 view64 : RegGetResult) : Except RegError String :=
  match GetRegistryRootKey rootKey with
  | none => .error .invalidRootKey
  | some _ =>
    match view32 with
    | .success v => .ok v
    | .failure _ =>
      if hasLogger then
        match view64 with
        | .success v => .ok v
        | .failure _ => .ok ""
      else .error .sinkNullDeref

/-- Answer of one RegEnumKeyEx call at the current cursor index: a child
name, or a status other than ERROR_SUCCESS and ERROR_NO_MORE_ITEMS.  The
oracle list holds the per-index answers; the index after the last list
entry answers ERROR_NO_MORE_ITEMS. -/
inductive RegEnumStep where
  | success (name : String)
  | failure (code : Nat)
deriving DecidableEq, Repr

/-- The enumeration loop of GetRegistrySubKeys (helpers.cpp:220).  buffer
is the reused name buffer: RegEnumKeyEx fills it on ERROR_SUCCESS and
leaves it untouched otherwise, and the loop body pushes the buffer once
more after receiving ERROR_NO_MORE_ITEMS, before the while-condition is
re-tested.  On any other status the handle is closed and a
std::system_error naming the key path is thrown, before the push. -/
def enumSubKeysLoop (keyPath : String) (buffer : String) :
    List RegEnumStep → Except RegError (List String)
  | [] => .ok [buffer]
  | .success name :: rest =>
    match enumSubKeysLoop keyPath name rest with
    | .ok names => .ok (name :: names)
    | .error e => .error e
  | .failure _ :: _ => .error (.accessError keyPath)

/-- GetRegistrySubKeys (helpers.cpp:181).  openResult is the outcome of
RegOpenKeyEx: none when the key could not be opened (the code then returns
an empty vector, key absence being unexceptional), some steps when it
opened.  The name buffer starts as MAX_PATH zero characters, whose c_str()
conversion is the empty string.  Every logger call in this function is
guarded by an `if (logger)` check, so the sink does not influence it. -/
def GetRegistrySubKeys (rootKey subKey : String)
    (openResult : Option (List RegEnumStep)) : Except RegError (List String) :=
  match GetRegistryRootKey rootKey with
  | none => .error .invalidRootKey
  | some _ =>
    match openResult with
    | none => .ok []
    | some steps => enumSubKeysLoop (rootKey ++ "\\" ++ subKey) "" steps

/-! ### Redirect-marker parser (helpers.cpp:312, FindXboxGamingRootPath) -/

/-- Conversion of one raw byte (0..255), stored in a (signed) char, to
char16_t, as performed by `char16_t highByte = bytes.at(i)` at
helpers.cpp:377: byte values at and above 0x80 are negative as char and
are sign-extended modulo 2^16 by the conversion. -/
def toChar16 (b : Nat) : Nat :=
  if b < 128 then b else 65280 + b

/-- One 16-bit unit from two consecutive bytes (helpers.cpp:377-379):
value = highByte | (lowByte << CHAR_BIT) truncated to 16 bits, where both
bytes went through the signed-char-to-char16_t conversion and, despite the
variable names, highByte is the byte at the even index. -/
def decodeChar16 (b0 b1 : Nat) : Nat :=
  (toChar16 b0 ||| (toChar16 b1 <<< 8)) % 65536

/-- The decode loop at helpers.cpp:375: consumes the byte list two at a
time.  The loop is only reached when the byte count is even. -/
def decodeUnits : List Nat → List Nat
  | b0 :: b1 :: rest => decodeChar16 b0 b1 :: decodeUnits rest
  | _ => []

/-- A successful parse result, `driveRootPath / relativePath`, kept as the
pair of the source root and the decoded 16-bit units of the relative
path. -/
structure RedirectTarget where
  sourceRoot : String
  relativeUnits : List Nat
deriving DecidableEq, Repr

/-- State of the .GamingRoot file at a given root, as observed by the
code.  notRegularFile: the std::filesystem::is_regular_file query answers
false (file missing or not a regular file).  thrownFailure: an exception
escapes the try block and is caught at helpers.cpp:329 — in practice
is_regular_file reporting an underlying error such as a drive not being
ready.  content: the bytes delivered by the stream read (each byte
0..255).  The ifstream is default-constructed with no exception mask and
the copy goes through istreambuf_iterator, so stream-level I/O failures
never throw: an open that fails after a successful query delivers an
empty byte list, and a mid-read error delivers a truncated one, both
indistinguishable here from true file content, exactly as in the code. -/
inductive MarkerFile where
  | notRegularFile
  | thrownFailure
  | content (bytes : List Nat)
deriving DecidableEq, Repr

/-- Abnormal outcomes of FindXboxGamingRootPath.  sinkNullDeref models the
logger->error call at helpers.cpp:365, which is not guarded by an
`if (logger)` check, executing with no logger attached.  The other two
carry the marker file path, as the thrown std::runtime_error messages
do. -/
inductive MarkerError where
  | sinkNullDeref
  | nonEvenByteCount (filePath : String)
  | shorterThanExpected (filePath : String)
deriving DecidableEq, Repr

/-- The candidate marker path `driveRootPath / ".GamingRoot"`
(helpers.cpp:315). -/
def gamingRootFilePath (driveRootPath : String) : String :=
  driveRootPath ++ "/.GamingRoot"

/-- FindXboxGamingRootPath (helpers.cpp:312).  A missing or non-regular
file and a thrown, caught exception yield nullopt (the hex dump and the
catch-block log are guarded).  Whatever bytes the stream delivered —
possibly empty or truncated after a silent stream failure — are then
parsed: an odd byte count logs through the logger without a presence
check and then throws; the decoded unit count must be at least
CHAR16_PATH_OFFSET + 1 = 5; the relative path is the units after the
4-unit header with the final unit dropped unconditionally. -/
def FindXboxGamingRootPath (hasLogger : Bool) (driveRootPath : String)
    (file : MarkerFile) : Except MarkerError (Option RedirectTarget) :=
  match file with
  | .notRegularFile => .ok none
  | .thrownFailure => .ok none
  | .content bytes =>
    if bytes.length % 2 ≠ 0 then
      if hasLogger then
        .error (.nonEvenByteCount (gamingRootFilePath driveRootPath))
      else
        .error .sinkNullDeref
    else
      let content := decodeUnits bytes
      if content.length < 5 then
        .error (.shorterThanExpected (gamingRootFilePath driveRootPath))
      else
        .ok (some ⟨driveRootPath, (content.drop 4).dropLast⟩)

/-- Little-endian encoding of one 16-bit unit, low byte first.  This is the
specification side of the round-trip property. -/
def encodeUnitLE (u : Nat) : List Nat :=
  [u % 256, (u / 256) % 256]

/-- The fixed 8-byte header 52 47 42 58 01 00 00 00 named in the code
comment at helpers.cpp:360. -/
def gamingRootHeader : List Nat :=
  [82, 71, 66, 88, 1, 0, 0, 0]

/-- Specification-side encoder for the round-trip property: a valid 8-byte
header, the UTF-16LE code units of the relative path, and a single null
terminator unit. -/
def encodeMarker (relativeUnits : List Nat) : List Nat :=
  gamingRootHeader ++ relativeUnits.flatMap encodeUnitLE ++ encodeUnitLE 0

/-! ### Filename collator (helpers.cpp:407, CompareFilenames) -/

/-- UTF-8 decoding with U+FFFD replacement, over bytes given as 0..255.
Models icu::UnicodeString::fromUTF8, used by the POSIX branch of
CompareFilenames, whose documented behaviour is that illegal input is
replaced with U+FFFD rather than reported: well-formed sequences decode to
their code point, each ill-formed subpart yields one replacement
character.  The fuel argument bounds the recursion; each step consumes at
least one byte, so fuel equal to the byte count is enough. -/
def utf8DecodeAux : Nat → List Nat → List Nat
  | 0, _ => []
  | _ + 1, [] => []
  | fuel + 1, b0 :: rest =>
    if b0 < 128 then b0 :: utf8DecodeAux fuel rest
    else if 194 ≤ b0 ∧ b0 ≤ 223 then
      match rest with
      | [] => [65533]
      | b1 :: rest1 =>
        if 128 ≤ b1 ∧ b1 ≤ 191 then
          ((b0 - 192) * 64 + (b1 - 128)) :: utf8DecodeAux fuel rest1
        else 65533 :: utf8DecodeAux fuel rest
    else if 224 ≤ b0 ∧ b0 ≤ 239 then
      match rest with
      | [] => [65533]
      | b1 :: rest1 =>
        if (if b0 = 224 then 160 ≤ b1 ∧ b1 ≤ 191
            else if b0 = 237 then 128 ≤ b1 ∧ b1 ≤ 159
            else 128 ≤ b1 ∧ b1 ≤ 191) then
          match rest1 with
          | [] => [65533]
          | b2 :: rest2 =>
            if 128 ≤ b2 ∧ b2 ≤ 191 then
              ((b0 - 224) * 4096 + (b1 - 128) * 64 + (b2 - 128)) ::
                utf8DecodeAux fuel rest2
            else 65533 :: utf8DecodeAux fuel rest1
        else 65533 :: utf8DecodeAux fuel rest
    else if 240 ≤ b0 ∧ b0 ≤ 244 then
      match rest with
      | [] => [65533]
      | b1 :: rest1 =>
        if (if b0 = 240 then 144 ≤ b1 ∧ b1 ≤ 191
            else if b0 = 244 then 128 ≤ b1 ∧ b1 ≤ 143
            else 128 ≤ b1 ∧ b1 ≤ 191) then
          match rest1 with
          | [] => [65533]
          | b2 :: rest2 =>
            if 128 ≤ b2 ∧ b2 ≤ 191 then
              match rest2 with
              | [] => [65533]
              | b3 :: rest3 =>
                if 128 ≤ b3 ∧ b3 ≤ 191 then
                  ((b0 - 240) * 262144 + (b1 - 128) * 4096 +
                      (b2 - 128) * 64 + (b3 - 128)) ::
                    utf8DecodeAux fuel rest3
                else 65533 :: utf8DecodeAux fuel rest2
            else 65533 :: utf8DecodeAux fuel rest1
        else 65533 :: utf8DecodeAux fuel rest
    else 65533 :: utf8DecodeAux fuel rest

/-- UTF-8 decoding with U+FFFD replacement of a full byte list. -/
def utf8Decode (bytes : List Nat) : List Nat :=
  utf8DecodeAux bytes.length bytes

/-- Validity of a byte list as UTF-8: the same branch structure as the
replacement decoder, answering false exactly where the decoder would
substitute U+FFFD. -/
def isValidUTF8Aux : Nat → List Nat → Bool
  | 0, l => l.isEmpty
  | _ + 1, [] => true
  | fuel + 1, b0 :: rest =>
    if b0 < 128 then isValidUTF8Aux fuel rest
    else if 194 ≤ b0 ∧ b0 ≤ 223 then
      match rest with
      | [] => false
      | b1 :: rest1 =>
        if 128 ≤ b1 ∧ b1 ≤ 191 then isValidUTF8Aux fuel rest1 else false
    else if 224 ≤ b0 ∧ b0 ≤ 239 then
      match rest with
      | [] => false
      | b1 :: rest1 =>
        if (if b0 = 224 then 160 ≤ b1 ∧ b1 ≤ 191
            else if b0 = 237 then 128 ≤ b1 ∧ b1 ≤ 159
            else 128 ≤ b1 ∧ b1 ≤ 191) then
          match rest1 with
          | [] => false
          | b2 :: rest2 =>
            if 128 ≤ b2 ∧ b2 ≤ 191 then isValidUTF8Aux fuel rest2 else false
        else false
    else if 240 ≤ b0 ∧ b0 ≤ 244 then
      match rest with
      | [] => false
      | b1 :: rest1 =>
        if (if b0 = 240 then 144 ≤ b1 ∧ b1 ≤ 191
            else if b0 = 244 then 128 ≤ b1 ∧ b1 ≤ 143
            else 128 ≤ b1 ∧ b1 ≤ 191) then
          match rest1 with
          | [] => false
          | b2 :: rest2 =>
            if 128 ≤ b2 ∧ b2 ≤ 191 then
              match rest2 with
              | [] => false
              | b3 :: rest3 =>
                if 128 ≤ b3 ∧ b3 ≤ 191 then isValidUTF8Aux fuel rest3
                else false
            else false
        else false
    else false

/-- Whether a byte list is well-formed UTF-8. -/
def isValidUTF8 (bytes : List Nat) : Bool :=
  isValidUTF8Aux bytes.length bytes

/-- Code-point order comparison of two code point lists, normalised to
-1, 0, 1 like the int returned through CompareFilenames. -/
def lexCompareNat : List Nat → List Nat → Int
  | [], [] => 0
  | [], _ :: _ => -1
  | _ :: _, [] => 1
  | a :: as, b :: bs =>
    if a < b then -1 else if b < a then 1 else lexCompareNat as bs

/-- Models icu::UnicodeString::caseCompare with U_FOLD_CASE_DEFAULT: the
two strings are compared in code point order after full case folding; the
folding table (code point to one or more folded code points) is a
parameter of the model. -/
def icuCaseCompare (fold : Nat → List Nat) (a b : List Nat) : Int :=
  lexCompareNat (a.flatMap fold) (b.flatMap fold)

/-- The POSIX branch of CompareFilenames (helpers.cpp:426): both arguments
go through fromUTF8 (with U+FFFD replacement, never an error) and then
caseCompare.  No failure path exists on this branch. -/
def CompareFilenamesPosix (fold : Nat → List Nat) (lhs rhs : List Nat) :
    Int :=
  icuCaseCompare fold (utf8Decode lhs) (utf8Decode rhs)

/-- A concrete sample of the Unicode default case folding, agreeing with
the full table on the code points used in the statements below: ASCII
capital letters fold to their lowercase forms and U+FFFD folds to
itself. -/
def asciiDefaultFold (c : Nat) : List Nat :=
  if 65 ≤ c ∧ c ≤ 90 then [c + 32] else [c]

/-- The error thrown by the Windows branch of CompareFilenames
(std::invalid_argument, one of the filenames to compare was invalid). -/
inductive CompareError where
  | invalidFilename
deriving DecidableEq, Repr

/-- The Windows branch of CompareFilenames (helpers.cpp:412): osResult is
the raw CompareStringOrdinal return value for the two converted strings,
mapped as CSTR_LESS_THAN = 1 to -1, CSTR_EQUAL = 2 to 0,
CSTR_GREATER_THAN = 3 to 1, anything else to the thrown
std::invalid_argument. -/
def CompareFilenamesWin (osResult : Nat) : Except CompareError Int :=
  if osResult = 1 then .ok (-1)
  else if osResult = 2 then .ok 0
  else if osResult = 3 then .ok 1
  else .error .invalidFilename

/-! ### Well-known path resolver (helpers.cpp:467, getLocalAppDataPath) -/

/-- Failure of getExecutableDirectory (a thrown std::system_error when the
OS cannot resolve the running image path). -/
inductive PathResolveError where
  | accessError
deriving DecidableEq, Repr

/-- getLocalAppDataPath (helpers.cpp:467), POSIX branch.  xdgConfigHome
and homeVar are the getenv observations for XDG_CONFIG_HOME and HOME (none
when unset; the C++ code tests the returned pointer against nullptr only,
so a set-but-empty variable is a some "" that wins).  executableDir is the
outcome of the getExecutableDirectory() call made when both are unset;
that call throws on failure and nothing here catches the error. -/
def getLocalAppDataPath (xdgConfigHome homeVar : Option String)
    (executableDir : Except PathResolveError String) :
    Except PathResolveError String :=
  match xdgConfigHome with
  | some p => .ok p
  | none =>
    match homeVar with
    | some h => .ok (h ++ "/.config")
    | none => executableDir

/-! ### CRC formatter (helpers.cpp:555, crcToString) -/

/-- One hexadecimal digit, 0-9 then uppercase A-F, as emitted by the
boost::format specifier %08X. -/
def toUpperHexDigit (n : Nat) : Char :=
  if n < 10 then Char.ofNat (48 + n) else Char.ofNat (55 + n)

/-- Most-significant-first hexadecimal digits of n.  The fuel bounds the
digit count; 8 digits are enough for every uint32_t value, the whole
domain of crcToString. -/
def natToHexAux : Nat → Nat → List Char
  | 0, _ => []
  | fuel + 1, n =>
    if n < 16 then [toUpperHexDigit n]
    else natToHexAux fuel (n / 16) ++ [toUpperHexDigit (n % 16)]

/-- crcToString (helpers.cpp:555): boost::format("%08X") % crc, the
minimal uppercase hexadecimal digits of the 32-bit value left-padded with
zeros to width 8. -/
def crcToString (crc : Nat) : String :=
  ⟨List.replicate (8 - (natToHexAux 8 crc).length) '0' ++ natToHexAux 8 crc⟩

/-- Value of one character read as an uppercase hexadecimal digit. -/
def hexDigitValue (c : Char) : Nat :=
  if c.toNat ≤ 57 then c.toNat - 48 else c.toNat - 55

/-- Value of a string read as uppercase hexadecimal, most significant
digit first. -/
def hexStringValue (s : String) : Nat :=
  s.data.foldl (fun acc c => 16 * acc + hexDigitValue c) 0

/-- Whether a character is a digit or an uppercase hexadecimal letter. -/
def isUpperHexDigit (c : Char) : Bool :=
  (48 ≤ c.toNat && c.toNat ≤ 57) || (65 ≤ c.toNat && c.toNat ≤ 70)

deriving instance DecidableEq for Except

/-! ### Helper lemmas -/

/-- The decode loop produces one 16-bit unit per byte pair. -/
theorem decodeUnits_length : ∀ l : List Nat,
    (decodeUnits l).length = l.length / 2
  | [] => by simp [decodeUnits]
  | [_] => by simp [decodeUnits]
  | _ :: _ :: rest => by
    have ih := decodeUnits_length rest
    simp only [decodeUnits, List.length_cons]
    omega

/-- Code-point order comparison only ever answers -1, 0 or 1. -/
theorem lexCompareNat_trichotomy : ∀ a b : List Nat,
    lexCompareNat a b = -1 ∨ lexCompareNat a b = 0 ∨ lexCompareNat a b = 1
  | [], [] => Or.inr (Or.inl rfl)
  | [], _ :: _ => Or.inl rfl
  | _ :: _, [] => Or.inr (Or.inr rfl)
  | a :: as, b :: bs => by
    simp only [lexCompareNat]
    split
    · exact Or.inl rfl
    · split
      · exact Or.inr (Or.inr rfl)
      · exact lexCompareNat_trichotomy as bs

/-- Reading back one emitted hexadecimal digit recovers its value. -/
theorem hexDigitValue_toUpperHexDigit :
    ∀ m, m < 16 → hexDigitValue (toUpperHexDigit m) = m := by decide

/-- Every emitted hexadecimal digit is a digit or uppercase letter. -/
theorem isUpperHexDigit_toUpperHexDigit :
    ∀ m, m < 16 → isUpperHexDigit (toUpperHexDigit m) = true := by decide

/-- With enough fuel for the value, the digit list is at most fuel long. -/
theorem natToHexAux_length_le : ∀ fuel n : Nat, n < 16 ^ fuel →
    (natToHexAux fuel n).length ≤ fuel := by
  intro fuel
  induction fuel with
  | zero => intro n h; simp [natToHexAux]
  | succ f ih =>
    intro n h
    unfold natToHexAux
    split
    · simp
    · have hdiv : n / 16 < 16 ^ f := by
        rw [Nat.div_lt_iff_lt_mul (by norm_num : (0:Nat) < 16)]
        calc n < 16 ^ (f + 1) := h
          _ = 16 ^ f * 16 := by ring
      have := ih (n / 16) hdiv
      simp only [List.length_append, List.length_cons, List.length_nil]
      omega

/-- Folding the emitted digits onto an accumulator computes the value. -/
theorem natToHexAux_foldl : ∀ fuel n acc : Nat, n < 16 ^ fuel →
    List.foldl (fun a c => 16 * a + hexDigitValue c) acc (natToHexAux fuel n) =
      acc * 16 ^ (natToHexAux fuel n).length + n := by
  intro fuel
  induction fuel with
  | zero =>
    intro n acc h
    have hn : n = 0 := by
      have : (16:Nat) ^ 0 = 1 := by norm_num
      omega
    subst hn
    simp [natToHexAux]
  | succ f ih =>
    intro n acc h
    unfold natToHexAux
    split
    · rename_i hn
      simp only [List.foldl_cons, List.foldl_nil, List.length_cons,
        List.length_nil, pow_one, zero_add]
      rw [hexDigitValue_toUpperHexDigit n hn]
      ring
    · rename_i hn
      have hdiv : n / 16 < 16 ^ f := by
        rw [Nat.div_lt_iff_lt_mul (by norm_num : (0:Nat) < 16)]
        calc n < 16 ^ (f + 1) := h
          _ = 16 ^ f * 16 := by ring
      rw [List.foldl_append]
      simp only [List.foldl_cons, List.foldl_nil]
      rw [ih (n / 16) acc hdiv,
        hexDigitValue_toUpperHexDigit (n % 16) (Nat.mod_lt _ (by norm_num)),
        List.length_append]
      simp only [List.length_cons, List.length_nil]
      rw [pow_succ, ← mul_assoc]
      have hmod := Nat.div_add_mod n 16
      set m := acc * 16 ^ (natToHexAux f (n / 16)).length with hm
      omega

/-- Folding leading zero padding multiplies the accumulator by a power of
sixteen (so a zero accumulator stays zero). -/
theorem foldl_hex_replicate_zero : ∀ k acc : Nat,
    List.foldl (fun a c => 16 * a + hexDigitValue c) acc
      (List.replicate k '0') = acc * 16 ^ k := by
  intro k
  induction k with
  | zero => intro acc; simp
  | succ kk ih =>
    intro acc
    rw [List.replicate_succ, List.foldl_cons, ih]
    have h0 : hexDigitValue '0' = 0 := by decide
    rw [h0, pow_succ]
    ring

/-- Every character emitted by the hexadecimal printer is a digit or an
uppercase letter. -/
theorem natToHexAux_digits : ∀ (fuel n : Nat) (c : Char),
    c ∈ natToHexAux fuel n → isUpperHexDigit c = true := by
  intro fuel
  induction fuel with
  | zero => intro n c hc; simp [natToHexAux] at hc
  | succ f ih =>
    intro n c hc
    unfold natToHexAux at hc
    split at hc
    · rename_i hn
      simp only [List.mem_singleton] at hc
      subst hc
      exact isUpperHexDigit_toUpperHexDigit n hn
    · rcases List.mem_append.mp hc with h | h
      · exact ih _ _ h
      · simp only [List.mem_singleton] at h
        subst h
        exact isUpperHexDigit_toUpperHexDigit _ (Nat.mod_lt _ (by norm_num))

/-! ### Claim theorems -/

/-- C1.  The round-trip claim fails on the code: encoding the one-unit
relative path U+0080 as UTF-16LE with a valid header and terminator and
parsing it back yields the unit 0xFF80 (65408), not 0x0080 (128), because
`char16_t highByte = bytes.at(i)` sign-extends bytes at and above 0x80
read through a signed char.  targetPath is the root joined with the
corrupted path, so the claim is false at this input. -/
theorem c1_sign_extension_breaks_roundtrip :
    FindXboxGamingRootPath true "D:" (.content (encodeMarker [128])) =
      .ok (some ⟨"D:", [65408]⟩) ∧
    FindXboxGamingRootPath true "D:" (.content (encodeMarker [128])) ≠
      .ok (some ⟨"D:", [128]⟩) := by decide

/-- C2.  Enumerating an existing key with exactly one child named A
returns two entries: after RegEnumKeyEx answers ERROR_NO_MORE_ITEMS the
loop body still pushes the stale name buffer once more, so the result is
[A, A] instead of the claimed one-entry-per-child [A]. -/
theorem c2_stale_buffer_extra_entry :
    GetRegistrySubKeys "HKEY_LOCAL_MACHINE" "Software\\Test"
        (some [.success "A"]) = .ok ["A", "A"] ∧
    GetRegistrySubKeys "HKEY_LOCAL_MACHINE" "Software\\Test"
        (some [.success "A"]) ≠ .ok ["A"] := by decide

/-- C3.  Not every diagnostic-emission call site checks for the sink: the
logger->info call at helpers.cpp:154 runs unguarded when the first
registry view fails, so with no sink attached the lookup dereferences the
null logger instead of returning the same value it returns with a sink
attached. -/
theorem c3_unguarded_sink_call_changes_result :
    RegKeyStringValue false "HKEY_LOCAL_MACHINE" (.failure 2)
        (.success "C:\\Games") = .error .sinkNullDeref ∧
    RegKeyStringValue true "HKEY_LOCAL_MACHINE" (.failure 2)
        (.success "C:\\Games") = .ok "C:\\Games" := by decide

/-- C4, counterexample.  As stated the claim is false: with no sink
attached a lookup absent under both views crashes on the unguarded logger
call instead of returning absent, and a lookup failing with a permission
error (status 5, ERROR_ACCESS_DENIED) under both views is also reported
as absent, not surfaced as an AccessError. -/
theorem c4_absent_value_crash_and_error_conflation :
    RegKeyStringValue false "HKEY_LOCAL_MACHINE" (.failure 2) (.failure 2) =
      .error .sinkNullDeref ∧
    RegKeyStringValue true "HKEY_LOCAL_MACHINE" (.failure 5) (.failure 5) =
      .ok "" := by decide

/-- C4, amended.  With a diagnostics sink attached and a valid root key,
a lookup failing under the 32-bit view is retried once under the 64-bit
view; failure under both views — whatever the status codes, including I/O
or permission errors — returns absent (the empty string) without raising,
and a success under either view returns that view's value. -/
theorem c4_amended_dual_view_fallback (rootKey : String)
    (hvalid : (GetRegistryRootKey rootKey).isSome = true) :
    (∀ c32 c64 : Nat,
      RegKeyStringValue true rootKey (.failure c32) (.failure c64) = .ok "") ∧
    (∀ (c32 : Nat) (v : String),
      RegKeyStringValue true rootKey (.failure c32) (.success v) = .ok v) ∧
    (∀ (v : String) (view64 : RegGetResult),
      RegKeyStringValue true rootKey (.success v) view64 = .ok v) := by
  rcases h : GetRegistryRootKey rootKey with _ | k
  · rw [h] at hvalid
    simp at hvalid
  · refine ⟨?_, ?_, ?_⟩ <;> intros <;> simp [RegKeyStringValue, h]

/-- C4, witness for the amended theorem at a concrete input. -/
theorem c4_amended_dual_view_fallback_w :
    (GetRegistryRootKey "HKEY_CURRENT_USER").isSome = true ∧
    RegKeyStringValue true "HKEY_CURRENT_USER" (.failure 2) (.failure 2) =
      .ok "" :=
  ⟨by decide,
    (c4_amended_dual_view_fallback "HKEY_CURRENT_USER" (by decide)).1 2 2⟩

/-- C5, counterexample.  As stated the claim is false: when both override
variables are unset and executable-directory resolution fails, the
function propagates that failure instead of returning a path, and when
XDG_CONFIG_HOME is set to the empty string the function returns the empty
path. -/
theorem c5_fallback_can_fail_or_be_empty :
    getLocalAppDataPath none none (.error .accessError) =
      .error .accessError ∧
    getLocalAppDataPath (some "") none (.ok "/opt/loot") = .ok "" :=
  ⟨rfl, rfl⟩

/-- C5, amended.  The resolver tries XDG_CONFIG_HOME, then HOME joined
with .config, then the executable directory, in that order; the first set
variable wins (even if empty), and with both variables unset the result is
exactly the outcome of executable-directory resolution, failure
included. -/
theorem c5_amended_fallback_chain (xdg home : Option String)
    (exeDir : Except PathResolveError String) :
    (∀ p, xdg = some p → getLocalAppDataPath xdg home exeDir = .ok p) ∧
    (∀ h, xdg = none → home = some h →
      getLocalAppDataPath xdg home exeDir = .ok (h ++ "/.config")) ∧
    (xdg = none → home = none →
      getLocalAppDataPath xdg home exeDir = exeDir) := by
  refine ⟨?_, ?_, ?_⟩ <;> intros <;> subst_vars <;> rfl

/-- C5, witness for the amended theorem at a concrete input. -/
theorem c5_amended_fallback_chain_w :
    getLocalAppDataPath (some "/home/user/cfg") none (.ok "/opt/loot") =
      .ok "/home/user/cfg" :=
  (c5_amended_fallback_chain (some "/home/user/cfg") none (.ok "/opt/loot")).1
    "/home/user/cfg" rfl

/-- C6, counterexample.  As stated the claim is false: with no sink
attached, an odd-length buffer reaches the unguarded logger->error call at
helpers.cpp:365 and dereferences the null logger before the
MalformedMarkerError can be thrown. -/
theorem c6_no_sink_crashes_on_odd_length :
    FindXboxGamingRootPath false "D:" (.content [0]) =
      .error .sinkNullDeref ∧
    FindXboxGamingRootPath false "D:" (.content [0]) ≠
      .error (.nonEvenByteCount (gamingRootFilePath "D:")) := by decide

/-- C6, amended.  With a diagnostics sink attached, every odd-length byte
buffer read from an existing marker file makes findRedirect fail with the
MalformedMarkerError naming the marker file path; it neither returns a
record nor returns absent. -/
theorem c6_amended_odd_rejected_with_sink (root : String) (bytes : List Nat)
    (hodd : bytes.length % 2 = 1) :
    FindXboxGamingRootPath true root (.content bytes) =
      .error (.nonEvenByteCount (gamingRootFilePath root)) := by
  have h2 : bytes.length % 2 ≠ 0 := by omega
  simp [FindXboxGamingRootPath, h2]

/-- C6, witness for the amended theorem at a concrete input. -/
theorem c6_amended_odd_rejected_with_sink_w :
    ([1, 2, 3] : List Nat).length % 2 = 1 ∧
    FindXboxGamingRootPath true "D:" (.content [1, 2, 3]) =
      .error (.nonEvenByteCount (gamingRootFilePath "D:")) :=
  ⟨by decide, c6_amended_odd_rejected_with_sink "D:" [1, 2, 3] (by decide)⟩

/-- C7.  Every even-length byte buffer shorter than 10 bytes decodes to
fewer than the required 4 + 1 units, so findRedirect fails with the
shorter-than-expected MalformedMarkerError naming the marker file path,
with or without a sink attached. -/
theorem c7_short_marker_rejected (hasLogger : Bool) (root : String)
    (bytes : List Nat) (heven : bytes.length % 2 = 0)
    (hshort : bytes.length < 10) :
    FindXboxGamingRootPath hasLogger root (.content bytes) =
      .error (.shorterThanExpected (gamingRootFilePath root)) := by
  have hlen := decodeUnits_length bytes
  have h2 : ¬ bytes.length % 2 ≠ 0 := by omega
  have h5 : (decodeUnits bytes).length < 5 := by omega
  simp [FindXboxGamingRootPath, h2, h5]

/-- C7, witness at a concrete input. -/
theorem c7_short_marker_rejected_w :
    ([0, 0] : List Nat).length % 2 = 0 ∧ ([0, 0] : List Nat).length < 10 ∧
    FindXboxGamingRootPath true "D:" (.content [0, 0]) =
      .error (.shorterThanExpected (gamingRootFilePath "D:")) :=
  ⟨by decide, by decide,
    c7_short_marker_rejected true "D:" [0, 0] (by decide) (by decide)⟩

/-- C8, counterexample.  As stated the claim is false: not every I/O
failure while reading the bytes is treated as absent.  The ifstream is
opened with no exception mask, so an open failure on an existing regular
marker file (permissions, a sharing violation — the is_regular_file query
still succeeds) silently delivers zero bytes and the parse then throws
the shorter-than-expected MalformedMarkerError, and a mid-read error that
truncates the delivered bytes to an odd count (here the 8-byte header
plus one byte) is surfaced as the non-even-byte-count
MalformedMarkerError. -/
theorem c8_silent_read_failure_surfaces_error :
    FindXboxGamingRootPath true "D:" (.content []) =
      .error (.shorterThanExpected (gamingRootFilePath "D:")) ∧
    FindXboxGamingRootPath true "D:"
        (.content [82, 71, 66, 88, 1, 0, 0, 0, 71]) =
      .error (.nonEvenByteCount (gamingRootFilePath "D:")) := by decide

/-- C8, amended.  A missing or non-regular marker file, and any failure
that surfaces as an exception inside the read block (such as the
filesystem query failing on a drive that is not ready), yield absent
without raising, with or without a sink attached; but an I/O failure the
stream reports silently is not treated as absent: a failed open delivers
zero bytes and findRedirect fails with the shorter-than-expected
MalformedMarkerError instead of returning absent. -/
theorem c8_amended_absent_only_for_thrown_failures (hasLogger : Bool)
    (root : String) :
    FindXboxGamingRootPath hasLogger root .notRegularFile = .ok none ∧
    FindXboxGamingRootPath hasLogger root .thrownFailure = .ok none ∧
    FindXboxGamingRootPath hasLogger root (.content []) =
      .error (.shorterThanExpected (gamingRootFilePath root)) :=
  ⟨rfl, rfl, rfl⟩

/-- C9, counterexample.  As stated the claim is false on the POSIX branch:
the byte 0xFF is not valid UTF-8, yet compare succeeds on it — fromUTF8
replaces the ill-formed input with U+FFFD and caseCompare answers Equal —
instead of failing with InvalidInputError. -/
theorem c9_invalid_input_not_rejected_posix :
    isValidUTF8 [255] = false ∧
    CompareFilenamesPosix asciiDefaultFold [255] [255] = 0 := by decide

/-- C9, amended.  The POSIX implementation never fails: ill-formed input
is decoded with U+FFFD replacement and every comparison answers one of
LessThan (-1), Equal (0), GreaterThan (1); only the Windows implementation
fails with InvalidInputError, exactly when CompareStringOrdinal answers
something other than its three comparison results, and otherwise it maps
them to the same three outcomes.  Neither branch has side effects. -/
theorem c9_amended_total_posix_partial_win :
    (∀ (fold : Nat → List Nat) (lhs rhs : List Nat),
      CompareFilenamesPosix fold lhs rhs = -1 ∨
      CompareFilenamesPosix fold lhs rhs = 0 ∨
      CompareFilenamesPosix fold lhs rhs = 1) ∧
    (∀ r : Nat,
      (CompareFilenamesWin r = .error .invalidFilename ↔
        r ≠ 1 ∧ r ≠ 2 ∧ r ≠ 3) ∧
      ((r = 1 ∨ r = 2 ∨ r = 3) →
        ∃ v, CompareFilenamesWin r = .ok v ∧
          (v = -1 ∨ v = 0 ∨ v = 1))) := by
  constructor
  · intro fold lhs rhs
    exact lexCompareNat_trichotomy _ _
  · intro r
    unfold CompareFilenamesWin
    constructor
    · split_ifs <;> simp_all
    · split_ifs with h1 h2 h3
      · exact fun _ => ⟨-1, rfl, Or.inl rfl⟩
      · exact fun _ => ⟨0, rfl, Or.inr (Or.inl rfl)⟩
      · exact fun _ => ⟨1, rfl, Or.inr (Or.inr rfl)⟩
      · intro hr
        rcases hr with h | h | h <;> simp_all

/-- C9, witness for the amended theorem at a concrete input. -/
theorem c9_amended_total_posix_partial_win_w :
    CompareFilenamesPosix asciiDefaultFold [65] [97] = -1 ∨
    CompareFilenamesPosix asciiDefaultFold [65] [97] = 0 ∨
    CompareFilenamesPosix asciiDefaultFold [65] [97] = 1 :=
  c9_amended_total_posix_partial_win.1 asciiDefaultFold [65] [97]

/-- C10.  For every 32-bit value, crcToString emits exactly 8 characters,
all of them digits or uppercase hexadecimal letters, and reading the
string back as hexadecimal recovers the value — so it is the zero-padded
uppercase hexadecimal representation of the input. -/
theorem c10_crc_format (crc : Nat) (h : crc < 4294967296) :
    (crcToString crc).length = 8 ∧
    (∀ c ∈ (crcToString crc).data, isUpperHexDigit c = true) ∧
    hexStringValue (crcToString crc) = crc := by
  have hpow : crc < 16 ^ 8 := by
    rw [(by norm_num : (16:Nat) ^ 8 = 4294967296)]
    exact h
  have hlen8 := natToHexAux_length_le 8 crc hpow
  refine ⟨?_, ?_, ?_⟩
  · have hdef : (crcToString crc).length =
        (List.replicate (8 - (natToHexAux 8 crc).length) '0' ++
          natToHexAux 8 crc).length := rfl
    rw [hdef, List.length_append, List.length_replicate]
    omega
  · intro c hc
    have hdata : (crcToString crc).data =
        List.replicate (8 - (natToHexAux 8 crc).length) '0' ++
          natToHexAux 8 crc := rfl
    rw [hdata] at hc
    rcases List.mem_append.mp hc with hr | hd
    · have h0 : c = '0' := List.eq_of_mem_replicate hr
      subst h0
      decide
    · exact natToHexAux_digits 8 crc c hd
  · have hdef : hexStringValue (crcToString crc) =
        List.foldl (fun a c => 16 * a + hexDigitValue c) 0
          (List.replicate (8 - (natToHexAux 8 crc).length) '0' ++
            natToHexAux 8 crc) := rfl
    rw [hdef, List.foldl_append, foldl_hex_replicate_zero,
      natToHexAux_foldl 8 crc _ hpow]
    simp

/-- C10, witness at a concrete input: the CRC 0xDEADBEEF. -/
theorem c10_crc_format_w :
    (3735928559 : Nat) < 4294967296 ∧
    crcToString 3735928559 = "DEADBEEF" ∧
    (crcToString 3735928559).length = 8 :=
  ⟨by norm_num, by decide, (c10_crc_format 3735928559 (by norm_num)).1⟩

end loot
